import Mathlib

/-!
Verification of the share-link subsystem of the baby-timeline app
(`src/sharing.py` and its caller in `app.py`).

The backing store (the Supabase `share_links` table) is modelled as a
`List ShareLink` in insertion order.  Each Supabase call in the source is
translated to a pure function on that list:

* `update {is_active: False}.eq("baby_id", b)`        → `deactivateAll`
* `update {...}.eq("baby_id", b).eq("is_active", ...)`→ `deactivateActive`
* `insert {...}`                                      → list append
* `select(*).eq("share_token", t).eq("is_active", True)` → `lookupActive`
* `select(*).eq("baby_id", b).eq("is_active", True)`  → `activeLinks`

Store-layer exceptions are modelled by an explicit fault argument: `none` /
`IssueFault.ok` means every call succeeds, the other values say which call
raised (carrying the Python exception message).  A raising call leaves the
store unchanged (a single SQL statement is atomic); calls already executed
before the raising one keep their effect, exactly as in the non-transactional
Python code.

bcrypt is external to the repository, so `hashpw` (salt folded in) and
`checkpw` are taken as function parameters; the theorems hold for every
choice of them.

Python truthiness of optional strings (`if password:`, `if link["password_hash"]:`)
is modelled by `optStrTruthy`: `None` and `""` are falsy.
-/

/-- Record of the `share_links` table, fields as in `src/sharing.py`
(`expires_at` is stored as an already-parsed timestamp). -/
structure ShareLink where
  baby_id : String
  share_token : String
  password_hash : Option String
  created_by : Option String
  is_active : Bool
  expires_at : Option Int
deriving Repr, DecidableEq

/-- Python truthiness of an optional string: `None` and `""` are falsy. -/
def optStrTruthy : Option String → Bool
  | none => false
  | some s => s != ""

/-- The expiry test of `validate_share_token` lines 131-136:
`datetime.now(tz) > expires_at`, skipped when `expires_at` is unset. -/
def isExpired (now : Int) (link : ShareLink) : Bool :=
  match link.expires_at with
  | some t => decide (t < now)
  | none => false

/-- The select of `validate_share_token` lines 120-124:
rows with this token that are active, in store order. -/
def lookupActive (store : List ShareLink) (token : String) : List ShareLink :=
  store.filter (fun l => l.share_token == token && l.is_active)

/-- The select of `get_active_share_link` lines 197-201:
active rows of this baby, in store order. -/
def activeLinks (store : List ShareLink) (baby_id : String) : List ShareLink :=
  store.filter (fun l => l.baby_id == baby_id && l.is_active)

/-- All rows of one baby, active or not (used to state frame properties). -/
def recordsOf (store : List ShareLink) (baby_id : String) : List ShareLink :=
  store.filter (fun l => l.baby_id == baby_id)

/-- The update of `generate_share_link` lines 56-58: set `is_active := false`
on every row of this baby (no `is_active` filter in the source). -/
def deactivateAll (store : List ShareLink) (baby_id : String) : List ShareLink :=
  store.map (fun l => if l.baby_id == baby_id then { l with is_active := false } else l)

/-- The update of `revoke_share_link` lines 169-171: set `is_active := false`
on every row of this baby that is currently active. -/
def deactivateActive (store : List ShareLink) (baby_id : String) : List ShareLink :=
  store.map (fun l =>
    if l.baby_id == baby_id && l.is_active then { l with is_active := false } else l)

/-- Which store call of `generate_share_link` raises, if any.
`insertNoData` is the source's own `raise Exception("Database insert failed
- no data returned")` on an empty insert result (no row was stored). -/
inductive IssueFault where
  | ok
  | updateRaises (message : String)
  | insertRaises (message : String)
  | insertNoData
deriving Repr, DecidableEq

/-- The except-branch of `generate_share_link` lines 83-89: a row-level
security message maps to the permission error, anything else to the
generic failure message. -/
def generate_error_message (e : String) : String :=
  if ((e.toLower).splitOn "violates row-level security").length > 1 then
    "❌ Permission denied. Please log in as admin."
  else
    "❌ Failed to generate link: " ++ e

/-- Shallow embedding of `generate_share_link` (`src/sharing.py` lines 18-89).
Returns the resulting store together with the Python return value
`(success, share_url-or-error, token-or-None)`.  The fresh `uuid4` token is
the `share_token` parameter; `base_url` models `os.getenv("BASE_URL", ...)`;
`user_id` models `st.session_state.get("user")`. -/
def generate_share_link (store : List ShareLink) (hashpw : String → String)
    (base_url : String) (baby_id : String) (password : Option String)
    (user_id : Option String) (share_token : String)
    (fault : IssueFault) : List ShareLink × (Bool × String × Option String) :=
  let password_hash : Option String :=
    if optStrTruthy password then some (hashpw (password.getD "")) else none
  match fault with
  | IssueFault.updateRaises e => (store, (false, generate_error_message e, none))
  | IssueFault.insertRaises e =>
      (deactivateAll store baby_id, (false, generate_error_message e, none))
  | IssueFault.insertNoData =>
      (deactivateAll store baby_id,
       (false, generate_error_message "Database insert failed - no data returned", none))
  | IssueFault.ok =>
      let newLink : ShareLink :=
        { baby_id := baby_id, share_token := share_token, password_hash := password_hash,
          created_by := user_id, is_active := true, expires_at := none }
      (deactivateAll store baby_id ++ [newLink],
       (true, base_url ++ "/?share_token=" ++ share_token, some share_token))

/-- Shallow embedding of `validate_share_token` (`src/sharing.py` lines
92-151).  `fault = some e` means the store lookup raised with message `e`
(any exception inside the try lands in the same catch-all); the function
still returns normally, as the source catches every `Exception`. -/
def validate_share_token (store : List ShareLink) (checkpw : String → String → Bool)
    (now : Int) (token : String) (password : Option String)
    (fault : Option String) : Bool × String :=
  match fault with
  | some e => (false, "❌ Validation error: " ++ e)
  | none =>
    match (lookupActive store token).head? with
    | none => (false, "❌ Invalid or expired share link")
    | some link =>
      if isExpired now link then
        (false, "❌ This share link has expired")
      else if optStrTruthy link.password_hash then
        if optStrTruthy password then
          if checkpw (password.getD "") (link.password_hash.getD "") then
            (true, link.baby_id)
          else
            (false, "❌ Incorrect password")
        else
          (false, "password_required")
      else
        (true, link.baby_id)

/-- Shallow embedding of `revoke_share_link` (`src/sharing.py` lines 154-179).
Returns the resulting store and the Python return value `(success, message)`.
`result.data` of the Supabase update is the list of matched rows, so the
reported count is the number of rows that were active for this baby. -/
def revoke_share_link (store : List ShareLink) (baby_id : String)
    (fault : Option String) : List ShareLink × (Bool × String) :=
  match fault with
  | some e => (store, (false, "❌ Failed to revoke links: " ++ e))
  | none =>
    let matched := activeLinks store baby_id
    let store' := deactivateActive store baby_id
    if matched.isEmpty then
      (store', (false, "❌ No active links found to revoke"))
    else
      (store', (true, "✅ Revoked " ++ toString matched.length ++ " active link(s)"))

/-- Shallow embedding of `get_active_share_link` (`src/sharing.py` lines
182-210): first active row of the baby, `none` when there is none or the
lookup raised (the source logs and returns `None`). -/
def get_active_share_link (store : List ShareLink) (baby_id : String)
    (fault : Option String) : Option ShareLink :=
  match fault with
  | some _ => none
  | none => (activeLinks store baby_id).head?

/-- Outcome taxonomy of the spec for a validation result. -/
inductive ViewerOutcome where
  | granted (subject_id : String)
  | passwordRequired
  | denied (message : String)
deriving Repr, DecidableEq

/-- The caller's classification of a `validate_share_token` result
(`app.py` lines 500-515): success is a grant, the sentinel string
`"password_required"` triggers the password prompt, anything else is a
hard denial. -/
def classify_validate_result : Bool × String → ViewerOutcome
  | (true, b) => ViewerOutcome.granted b
  | (false, m) =>
      if m = "password_required" then ViewerOutcome.passwordRequired
      else ViewerOutcome.denied m

/-- Invariant of the data model: per subject, at most one active link. -/
def ActiveInvariant (store : List ShareLink) : Prop :=
  ∀ b, (activeLinks store b).length ≤ 1

/-! ### Helper lemmas about the store operations -/

/-- Filtering commutes with a map that fixes every element the filter keeps
and never changes the filter's verdict. -/
theorem filter_map_of_fix (f : ShareLink → ShareLink) (p : ShareLink → Bool)
    (h1 : ∀ x, p (f x) = p x) (h2 : ∀ x, p x = true → f x = x)
    (l : List ShareLink) : (l.map f).filter p = l.filter p := by
  induction l with
  | nil => rfl
  | cons hd tl ih =>
    simp only [List.map_cons, List.filter_cons, h1]
    by_cases hp : p hd = true
    · rw [hp, h2 hd hp, ih]
    · simp only [Bool.not_eq_true] at hp
      simp only [hp, Bool.false_eq_true, if_false, ih]

theorem activeLinks_deactivateAll_self (store : List ShareLink) (b : String) :
    activeLinks (deactivateAll store b) b = [] := by
  rw [activeLinks, List.filter_eq_nil_iff]
  intro a ha
  rw [deactivateAll, List.mem_map] at ha
  obtain ⟨x, _, rfl⟩ := ha
  by_cases hb : x.baby_id = b
  · simp [hb]
  · simp [hb]

theorem activeLinks_deactivateAll_other (store : List ShareLink) (b s : String)
    (h : s ≠ b) : activeLinks (deactivateAll store b) s = activeLinks store s := by
  apply filter_map_of_fix
  · intro x
    by_cases hx : x.baby_id = b
    · simp [hx, Ne.symm h]
    · simp [hx]
  · intro x hx
    have hxs : x.baby_id = s := by
      simp only [Bool.and_eq_true, beq_iff_eq] at hx
      exact hx.1
    have : (x.baby_id == b) = false := by simp [hxs, h]
    simp [this]

theorem recordsOf_deactivateAll_other (store : List ShareLink) (b s : String)
    (h : s ≠ b) : recordsOf (deactivateAll store b) s = recordsOf store s := by
  apply filter_map_of_fix
  · intro x
    by_cases hx : x.baby_id = b
    · simp [hx, Ne.symm h]
    · simp [hx]
  · intro x hx
    have hxs : x.baby_id = s := by simpa using hx
    have : (x.baby_id == b) = false := by simp [hxs, h]
    simp [this]

theorem activeLinks_deactivateActive_self (store : List ShareLink) (b : String) :
    activeLinks (deactivateActive store b) b = [] := by
  rw [activeLinks, List.filter_eq_nil_iff]
  intro a ha
  rw [deactivateActive, List.mem_map] at ha
  obtain ⟨x, _, rfl⟩ := ha
  by_cases hb : x.baby_id = b
  · by_cases hact : x.is_active = true
    · simp [hb, hact]
    · simp only [Bool.not_eq_true] at hact
      simp [hb, hact]
  · simp [hb]

theorem activeLinks_deactivateActive_other (store : List ShareLink) (b s : String)
    (h : s ≠ b) : activeLinks (deactivateActive store b) s = activeLinks store s := by
  apply filter_map_of_fix
  · intro x
    by_cases hx : x.baby_id = b
    · by_cases hact : x.is_active = true <;> simp [hx, hact, Ne.symm h]
    · simp [hx]
  · intro x hx
    have hxs : x.baby_id = s := by
      simp only [Bool.and_eq_true, beq_iff_eq] at hx
      exact hx.1
    have : (x.baby_id == b) = false := by simp [hxs, h]
    simp [this]

theorem recordsOf_deactivateActive_other (store : List ShareLink) (b s : String)
    (h : s ≠ b) : recordsOf (deactivateActive store b) s = recordsOf store s := by
  apply filter_map_of_fix
  · intro x
    by_cases hx : x.baby_id = b
    · by_cases hact : x.is_active = true <;> simp [hx, hact, Ne.symm h]
    · simp [hx]
  · intro x hx
    have hxs : x.baby_id = s := by simpa using hx
    have : (x.baby_id == b) = false := by simp [hxs, h]
    simp [this]

theorem activeLinks_append (l₁ l₂ : List ShareLink) (s : String) :
    activeLinks (l₁ ++ l₂) s = activeLinks l₁ s ++ activeLinks l₂ s :=
  List.filter_append _ _

theorem lookupActive_append (l₁ l₂ : List ShareLink) (t : String) :
    lookupActive (l₁ ++ l₂) t = lookupActive l₁ t ++ lookupActive l₂ t :=
  List.filter_append _ _

theorem recordsOf_append (l₁ l₂ : List ShareLink) (s : String) :
    recordsOf (l₁ ++ l₂) s = recordsOf l₁ s ++ recordsOf l₂ s :=
  List.filter_append _ _

/-- After `deactivateAll store b`, a token that only ever belonged to baby
`b` has no active match left. -/
theorem lookupActive_deactivateAll_eq_nil (store : List ShareLink) (b t : String)
    (h : ∀ l ∈ store, l.share_token = t → l.baby_id = b) :
    lookupActive (deactivateAll store b) t = [] := by
  rw [lookupActive, List.filter_eq_nil_iff]
  intro a ha
  rw [deactivateAll, List.mem_map] at ha
  obtain ⟨x, hx, rfl⟩ := ha
  by_cases hb : x.baby_id = b
  · simp [hb]
  · have htok : x.share_token ≠ t := fun he => hb (h x hx he)
    simp [hb, htok]

/-- A token absent from the store stays absent after `deactivateAll`. -/
theorem lookupActive_deactivateAll_fresh (store : List ShareLink) (b t : String)
    (h : ∀ l ∈ store, l.share_token ≠ t) :
    lookupActive (deactivateAll store b) t = [] := by
  apply lookupActive_deactivateAll_eq_nil
  intro l hl he
  exact absurd he (h l hl)

/-- When a baby has no active row, `deactivateActive` is the identity. -/
theorem deactivateActive_eq_self (store : List ShareLink) (b : String)
    (h : activeLinks store b = []) : deactivateActive store b = store := by
  induction store with
  | nil => rfl
  | cons hd tl ih =>
    simp only [activeLinks, List.filter_cons] at h
    by_cases hp : (hd.baby_id == b && hd.is_active) = true
    · rw [if_pos hp] at h
      exact absurd h (List.cons_ne_nil _ _)
    · rw [if_neg hp] at h
      have htl : deactivateActive tl b = tl := ih h
      simp only [Bool.not_eq_true] at hp
      simp only [deactivateActive, List.map_cons, hp, Bool.false_eq_true, if_false]
      simp only [deactivateActive] at htl
      rw [htl]

/-- The catch-all message of `validate_share_token` can never collide with
the `"password_required"` sentinel: the lengths already differ. -/
theorem validation_error_ne_sentinel (e : String) :
    ("❌ Validation error: " ++ e) ≠ "password_required" := by
  intro h
  have hlen := congrArg String.length h
  rw [String.length_append] at hlen
  have h1 : ("❌ Validation error: ").length = 20 := rfl
  have h2 : ("password_required").length = 17 := rfl
  rw [h1, h2] at hlen
  omega

theorem classify_granted (b : String) :
    classify_validate_result (true, b) = ViewerOutcome.granted b := rfl

theorem classify_denied_of_ne (m : String) (h : m ≠ "password_required") :
    classify_validate_result (false, m) = ViewerOutcome.denied m := by
  simp only [classify_validate_result]
  rw [if_neg h]

/-! ### Claim theorems -/

/-- C4: `validate_share_token` never raises.  A store-layer exception
(`fault = some e`) is caught and normalized to the Denied-style
validation-error result, and on a fault-free run the result is either a
grant or carries one of the four defined outcome messages, so the caller
always receives one of the defined outcomes. -/
theorem C4_validate_never_raises (store : List ShareLink)
    (checkpw : String → String → Bool) (now : Int) (token : String)
    (password : Option String) (fault : Option String) :
    (∀ e, fault = some e →
      validate_share_token store checkpw now token password fault =
        (false, "❌ Validation error: " ++ e)) ∧
    (fault = none →
      (validate_share_token store checkpw now token password fault).1 = true ∨
      (validate_share_token store checkpw now token password fault).2 ∈
        ["❌ Invalid or expired share link", "❌ This share link has expired",
         "password_required", "❌ Incorrect password"]) := by
  constructor
  · intro e he
    subst he
    rfl
  · intro hf
    subst hf
    simp only [validate_share_token]
    cases hh : (lookupActive store token).head? with
    | none => simp
    | some link =>
      by_cases hexp : isExpired now link = true
      · simp [hexp]
      · simp only [Bool.not_eq_true] at hexp
        by_cases hph : optStrTruthy link.password_hash = true
        · by_cases hpw : optStrTruthy password = true
          · by_cases hc : checkpw (password.getD "") (link.password_hash.getD "") = true
            · simp [hexp, hph, hpw, hc]
            · simp only [Bool.not_eq_true] at hc
              simp [hexp, hph, hpw, hc]
          · simp only [Bool.not_eq_true] at hpw
            simp [hexp, hph, hpw]
        · simp only [Bool.not_eq_true] at hph
          simp [hexp, hph]

/-- C4 witness: a concrete faulty lookup is normalized to the
validation-error denial. -/
theorem C4_witness :
    validate_share_token [] (fun _ _ => false) 0 "tok" none (some "boom") =
      (false, "❌ Validation error: " ++ "boom") :=
  (C4_validate_never_raises [] (fun _ _ => false) 0 "tok" none (some "boom")).1 "boom" rfl

/-- C5: an active link whose `expires_at` lies in the past is denied with
the expiry message for every password argument (the expiry check of lines
131-136 runs before the password check of lines 139-145), so it is never
granted and never prompts for a password. -/
theorem C5_expired_always_denied (store : List ShareLink)
    (checkpw : String → String → Bool) (now : Int) (token : String)
    (password : Option String) (link : ShareLink) (t : Int)
    (hlink : (lookupActive store token).head? = some link)
    (hexp : link.expires_at = some t) (hpast : t < now) :
    validate_share_token store checkpw now token password none =
      (false, "❌ This share link has expired") ∧
    classify_validate_result (validate_share_token store checkpw now token password none) =
      ViewerOutcome.denied "❌ This share link has expired" := by
  have hexpired : isExpired now link = true := by
    simp [isExpired, hexp, hpast]
  have hval : validate_share_token store checkpw now token password none =
      (false, "❌ This share link has expired") := by
    simp only [validate_share_token, hlink]
    simp [hexpired]
  refine ⟨hval, ?_⟩
  rw [hval]
  exact classify_denied_of_ne _ (by decide)

/-- C5 witness: a concrete expired, password-protected link is denied even
when the (correct) password is supplied. -/
theorem C5_witness :
    validate_share_token
      [{ baby_id := "baby-1", share_token := "tok", password_hash := some "h",
         created_by := none, is_active := true, expires_at := some 5 }]
      (fun _ _ => true) 10 "tok" (some "pw") none =
      (false, "❌ This share link has expired") :=
  (C5_expired_always_denied
      [{ baby_id := "baby-1", share_token := "tok", password_hash := some "h",
         created_by := none, is_active := true, expires_at := some 5 }]
      (fun _ _ => true) 10 "tok" (some "pw")
      { baby_id := "baby-1", share_token := "tok", password_hash := some "h",
        created_by := none, is_active := true, expires_at := some 5 } 5
      rfl rfl (by decide)).1

/-- C6: an active, unexpired link with no password hash is granted with its
subject id for every password argument; the password is never consulted
(`if link["password_hash"]:` fails, so lines 140-145 are skipped). -/
theorem C6_no_password_grants (store : List ShareLink)
    (checkpw : String → String → Bool) (now : Int) (token : String)
    (password : Option String) (link : ShareLink)
    (hlink : (lookupActive store token).head? = some link)
    (hexp : isExpired now link = false)
    (hhash : link.password_hash = none) :
    validate_share_token store checkpw now token password none =
      (true, link.baby_id) := by
  have hph : optStrTruthy link.password_hash = false := by
    rw [hhash]
    rfl
  simp only [validate_share_token, hlink]
  simp [hexp, hph]

/-- C6 witness: a concrete unprotected link grants access with a supplied
password as well as with none. -/
theorem C6_witness :
    validate_share_token
      [{ baby_id := "baby-2", share_token := "u", password_hash := none,
         created_by := none, is_active := true, expires_at := none }]
      (fun _ _ => false) 0 "u" (some "whatever") none = (true, "baby-2") :=
  C6_no_password_grants
    [{ baby_id := "baby-2", share_token := "u", password_hash := none,
       created_by := none, is_active := true, expires_at := none }]
    (fun _ _ => false) 0 "u" (some "whatever")
    { baby_id := "baby-2", share_token := "u", password_hash := none,
      created_by := none, is_active := true, expires_at := none }
    rfl rfl rfl

/-- C3: the caller's sentinel classification recognises exactly the
password-prompt branch of `validate_share_token`.  The classification is
`PasswordRequired` if and only if the run was fault-free, the token matched
an active link, that link is unexpired, its password hash is set (truthy)
and the supplied password is absent (falsy).  Every other branch — invalid
token, expiry, wrong password, grant, and the exception catch-all for any
exception message — classifies as `Granted` or `Denied`, never as
`PasswordRequired`. -/
theorem C3_password_required_exactly (store : List ShareLink)
    (checkpw : String → String → Bool) (now : Int) (token : String)
    (password : Option String) (fault : Option String) :
    classify_validate_result
        (validate_share_token store checkpw now token password fault) =
      ViewerOutcome.passwordRequired ↔
    (fault = none ∧ ∃ link, (lookupActive store token).head? = some link ∧
      isExpired now link = false ∧ optStrTruthy link.password_hash = true ∧
      optStrTruthy password = false) := by
  cases fault with
  | some e =>
    apply iff_of_false
    · intro h
      rw [show validate_share_token store checkpw now token password (some e) =
            (false, "❌ Validation error: " ++ e) from rfl] at h
      rw [classify_denied_of_ne _ (validation_error_ne_sentinel e)] at h
      exact ViewerOutcome.noConfusion h
    · rintro ⟨hc, -⟩
      exact Option.noConfusion hc
  | none =>
    cases hh : (lookupActive store token).head? with
    | none =>
      apply iff_of_false
      · intro h
        simp only [validate_share_token, hh] at h
        rw [classify_denied_of_ne _ (by decide)] at h
        exact ViewerOutcome.noConfusion h
      · rintro ⟨-, link, hl, -⟩
        exact Option.noConfusion hl
    | some link =>
      by_cases hexp : isExpired now link = true
      · apply iff_of_false
        · intro h
          simp only [validate_share_token, hh, hexp, if_true] at h
          rw [classify_denied_of_ne _ (by decide)] at h
          exact ViewerOutcome.noConfusion h
        · rintro ⟨-, link', hl', hexp', -⟩
          cases hl'
          rw [hexp] at hexp'
          exact Bool.noConfusion hexp'
      · simp only [Bool.not_eq_true] at hexp
        by_cases hph : optStrTruthy link.password_hash = true
        · by_cases hpw : optStrTruthy password = true
          · apply iff_of_false
            · intro h
              simp only [validate_share_token, hh, hexp, Bool.false_eq_true,
                if_false, hph, if_true, hpw] at h
              by_cases hc : checkpw (password.getD "") (link.password_hash.getD "") = true
              · rw [if_pos hc, classify_granted] at h
                exact ViewerOutcome.noConfusion h
              · simp only [Bool.not_eq_true] at hc
                rw [hc] at h
                simp only [Bool.false_eq_true, if_false] at h
                rw [classify_denied_of_ne _ (by decide)] at h
                exact ViewerOutcome.noConfusion h
            · rintro ⟨-, link', hl', -, -, hpw'⟩
              rw [hpw] at hpw'
              exact Bool.noConfusion hpw'
          · simp only [Bool.not_eq_true] at hpw
            apply iff_of_true
            · simp only [validate_share_token, hh, hexp, Bool.false_eq_true,
                if_false, hph, if_true, hpw]
              rfl
            · exact ⟨rfl, link, rfl, hexp, hph, hpw⟩
        · simp only [Bool.not_eq_true] at hph
          apply iff_of_false
          · intro h
            simp only [validate_share_token, hh, hexp, Bool.false_eq_true,
              if_false, hph] at h
            rw [classify_granted] at h
            exact ViewerOutcome.noConfusion h
          · rintro ⟨-, link', hl', -, hph', -⟩
            cases hl'
            rw [hph] at hph'
            exact Bool.noConfusion hph'

/-- C3 witness: a concrete active, unexpired, password-protected link probed
without a password classifies as `PasswordRequired`. -/
theorem C3_witness :
    classify_validate_result
        (validate_share_token
          [{ baby_id := "baby-1", share_token := "tok", password_hash := some "h",
             created_by := none, is_active := true, expires_at := none }]
          (fun _ _ => true) 0 "tok" none none) =
      ViewerOutcome.passwordRequired :=
  (C3_password_required_exactly
      [{ baby_id := "baby-1", share_token := "tok", password_hash := some "h",
         created_by := none, is_active := true, expires_at := none }]
      (fun _ _ => true) 0 "tok" none none).mpr
    ⟨rfl, { baby_id := "baby-1", share_token := "tok", password_hash := some "h",
            created_by := none, is_active := true, expires_at := none },
      rfl, rfl, rfl, rfl⟩

/-- The store after a fully successful `generate_share_link`: every row of
the baby deactivated, then the single new active row appended. -/
theorem generate_store_eq (store : List ShareLink) (hashpw : String → String)
    (base_url baby_id : String) (password user_id : Option String)
    (share_token : String) :
    (generate_share_link store hashpw base_url baby_id password user_id
        share_token IssueFault.ok).1 =
      deactivateAll store baby_id ++
        [{ baby_id := baby_id, share_token := share_token,
           password_hash :=
             if optStrTruthy password then some (hashpw (password.getD "")) else none,
           created_by := user_id, is_active := true, expires_at := none }] := rfl

/-- The store after a fault-free `revoke_share_link`, whether or not any row
matched. -/
theorem revoke_store_eq (store : List ShareLink) (baby_id : String) :
    (revoke_share_link store baby_id none).1 = deactivateActive store baby_id := by
  simp only [revoke_share_link]
  by_cases h : (activeLinks store baby_id).isEmpty = true <;> simp [h]

/-- C7: every operation preserves the invariant that a subject has at most
one active link.  `generate_share_link` deactivates every row of the baby
before inserting the single new active row (and its failure paths either
leave the store untouched or leave the baby with zero active rows);
`revoke_share_link` only deactivates rows; `validate_share_token` and
`get_active_share_link` are read-only by construction (their embeddings
return no store). -/
theorem C7_invariant_preserved (store : List ShareLink) (hashpw : String → String)
    (base_url baby_id : String) (password user_id : Option String)
    (share_token : String) (fault : IssueFault)
    (baby_id' : String) (fault' : Option String)
    (hinv : ActiveInvariant store) :
    ActiveInvariant (generate_share_link store hashpw base_url baby_id password
        user_id share_token fault).1 ∧
    ActiveInvariant (revoke_share_link store baby_id' fault').1 := by
  constructor
  · cases fault with
    | updateRaises e => exact hinv
    | insertRaises e =>
      intro s
      show (activeLinks (deactivateAll store baby_id) s).length ≤ 1
      by_cases hs : s = baby_id
      · rw [hs, activeLinks_deactivateAll_self]
        simp
      · rw [activeLinks_deactivateAll_other store baby_id s hs]
        exact hinv s
    | insertNoData =>
      intro s
      show (activeLinks (deactivateAll store baby_id) s).length ≤ 1
      by_cases hs : s = baby_id
      · rw [hs, activeLinks_deactivateAll_self]
        simp
      · rw [activeLinks_deactivateAll_other store baby_id s hs]
        exact hinv s
    | ok =>
      intro s
      rw [generate_store_eq, activeLinks_append]
      by_cases hs : s = baby_id
      · subst hs
        rw [activeLinks_deactivateAll_self]
        simp [activeLinks]
      · rw [activeLinks_deactivateAll_other store baby_id s hs]
        have h2 : activeLinks
            [{ baby_id := baby_id, share_token := share_token,
               password_hash :=
                 if optStrTruthy password then some (hashpw (password.getD "")) else none,
               created_by := user_id, is_active := true, expires_at := none }] s = [] := by
          simp [activeLinks, Ne.symm hs]
        rw [h2, List.append_nil]
        exact hinv s
  · cases fault' with
    | some e => exact hinv
    | none =>
      intro s
      rw [revoke_store_eq]
      by_cases hs : s = baby_id'
      · rw [hs, activeLinks_deactivateActive_self]
        simp
      · rw [activeLinks_deactivateActive_other store baby_id' s hs]
        exact hinv s

/-- C7 witness: the invariant holds of the stores produced from a concrete
one-link store by a successful issue and by a revoke. -/
theorem C7_witness :
    ActiveInvariant (generate_share_link
        [{ baby_id := "baby-1", share_token := "tok-old", password_hash := none,
           created_by := none, is_active := true, expires_at := none }]
        (fun p => p) "http://localhost:8501" "baby-1" none none "tok-new"
        IssueFault.ok).1 ∧
    ActiveInvariant (revoke_share_link
        [{ baby_id := "baby-1", share_token := "tok-old", password_hash := none,
           created_by := none, is_active := true, expires_at := none }]
        "baby-1" none).1 :=
  C7_invariant_preserved
    [{ baby_id := "baby-1", share_token := "tok-old", password_hash := none,
       created_by := none, is_active := true, expires_at := none }]
    (fun p => p) "http://localhost:8501" "baby-1" none none "tok-new"
    IssueFault.ok "baby-1" none
    (fun b => le_trans (List.length_filter_le _ _) (by simp))

/-- C10: issue and revoke applied to one subject leave every record of any
other subject unchanged, on every fault path: the store updates are
filtered by the subject id, and the inserted row carries the operated-on
subject id. -/
theorem C10_other_subjects_unchanged (store : List ShareLink)
    (hashpw : String → String) (base_url s : String)
    (password user_id : Option String) (share_token : String)
    (fault : IssueFault) (fault' : Option String) (s' : String) (h : s' ≠ s) :
    recordsOf (generate_share_link store hashpw base_url s password user_id
        share_token fault).1 s' = recordsOf store s' ∧
    recordsOf (revoke_share_link store s fault').1 s' = recordsOf store s' := by
  constructor
  · cases fault with
    | updateRaises e => rfl
    | insertRaises e => exact recordsOf_deactivateAll_other store s s' h
    | insertNoData => exact recordsOf_deactivateAll_other store s s' h
    | ok =>
      rw [generate_store_eq, recordsOf_append,
        recordsOf_deactivateAll_other store s s' h]
      simp [recordsOf, Ne.symm h]
  · cases fault' with
    | some e => rfl
    | none =>
      rw [revoke_store_eq]
      exact recordsOf_deactivateActive_other store s s' h

/-- C10 witness: a concrete issue and revoke on `baby-1` leave the record
of `baby-2` unchanged. -/
theorem C10_witness :
    recordsOf (generate_share_link
        [{ baby_id := "baby-2", share_token := "tok-b2", password_hash := none,
           created_by := none, is_active := true, expires_at := none }]
        (fun p => p) "http://localhost:8501" "baby-1" none none "tok-new"
        IssueFault.ok).1 "baby-2" =
      recordsOf
        [{ baby_id := "baby-2", share_token := "tok-b2", password_hash := none,
           created_by := none, is_active := true, expires_at := none }] "baby-2" :=
  (C10_other_subjects_unchanged
      [{ baby_id := "baby-2", share_token := "tok-b2", password_hash := none,
         created_by := none, is_active := true, expires_at := none }]
      (fun p => p) "http://localhost:8501" "baby-1" none none "tok-new"
      IssueFault.ok none "baby-2" (by decide)).1

/-- C1 counterexample: with no active link, `revoke_share_link` reports
failure (`success = False`) with the message "No active links found to
revoke" — not a success with count 0 as the claim states. -/
theorem C1_counterexample :
    (revoke_share_link [] "baby-1" none).2.1 = false ∧
    (revoke_share_link [] "baby-1" none).2.2 =
      "❌ No active links found to revoke" :=
  ⟨rfl, rfl⟩

/-- C1 (amended): with no active link, `revoke_share_link` does not raise
and deactivates nothing, but it returns the failure result
`(False, "❌ No active links found to revoke")` rather than a success with
count 0; consequently a second revoke immediately after any revoke also
returns that failure result (the store then has no active row for the
subject left). -/
theorem C1_revoke_no_active (store : List ShareLink) (b : String) :
    (activeLinks store b = [] →
      revoke_share_link store b none =
        (store, (false, "❌ No active links found to revoke"))) ∧
    (revoke_share_link (revoke_share_link store b none).1 b none).2 =
      (false, "❌ No active links found to revoke") := by
  constructor
  · intro h
    have hD := deactivateActive_eq_self store b h
    simp only [revoke_share_link, h, List.isEmpty_nil, if_true, hD]
  · rw [revoke_store_eq]
    simp only [revoke_share_link, activeLinks_deactivateActive_self,
      List.isEmpty_nil, if_true]

/-- C1 witness: on a concrete empty store the revoke leaves the store
unchanged and returns the failure result. -/
theorem C1_witness :
    revoke_share_link [] "baby-1" none =
      ([], (false, "❌ No active links found to revoke")) :=
  (C1_revoke_no_active [] "baby-1").1 rfl

/-- C2: refuted on the code.  `generate_share_link` runs the deactivating
update and the insert as two separate store calls with no transaction:
on a store holding exactly one active link for `baby-1`, a failure of the
insert step reports an error but leaves the deactivation in place, so the
subject ends with zero active links even though it previously had one —
the partial state the claim rules out. -/
theorem C2_partial_state_on_insert_failure :
    (activeLinks
        [{ baby_id := "baby-1", share_token := "tok-old", password_hash := none,
           created_by := none, is_active := true, expires_at := none }]
        "baby-1").length = 1 ∧
    (generate_share_link
        [{ baby_id := "baby-1", share_token := "tok-old", password_hash := none,
           created_by := none, is_active := true, expires_at := none }]
        (fun p => p) "http://localhost:8501" "baby-1" none none "tok-new"
        (IssueFault.insertRaises "connection reset")).2.1 = false ∧
    activeLinks
      (generate_share_link
        [{ baby_id := "baby-1", share_token := "tok-old", password_hash := none,
           created_by := none, is_active := true, expires_at := none }]
        (fun p => p) "http://localhost:8501" "baby-1" none none "tok-new"
        (IssueFault.insertRaises "connection reset")).1 "baby-1" = [] :=
  ⟨rfl, rfl, rfl⟩

/-- C8: after a successful issue for subject `b` with a fresh token,
`get_active_share_link` returns exactly the newly inserted link, and the
previously active token no longer validates: it is denied as invalid.
Freshness of the uuid4 token and per-subject uniqueness of the old token
are the hypotheses. -/
theorem C8_issue_replaces_active (store : List ShareLink)
    (hashpw : String → String) (base_url b : String)
    (password user_id : Option String) (t_new t_old : String)
    (checkpw : String → String → Bool) (now : Int) (pw' : Option String)
    (hfresh : ∀ l ∈ store, l.share_token ≠ t_new)
    (hold : ∀ l ∈ store, l.share_token = t_old → l.baby_id = b)
    (hne : t_old ≠ t_new) :
    (generate_share_link store hashpw base_url b password user_id t_new
        IssueFault.ok).2.1 = true ∧
    get_active_share_link
        (generate_share_link store hashpw base_url b password user_id t_new
          IssueFault.ok).1 b none =
      some { baby_id := b, share_token := t_new,
             password_hash :=
               if optStrTruthy password then some (hashpw (password.getD "")) else none,
             created_by := user_id, is_active := true, expires_at := none } ∧
    validate_share_token
        (generate_share_link store hashpw base_url b password user_id t_new
          IssueFault.ok).1 checkpw now t_old pw' none =
      (false, "❌ Invalid or expired share link") := by
  refine ⟨rfl, ?_, ?_⟩
  · show (activeLinks (generate_share_link store hashpw base_url b password
        user_id t_new IssueFault.ok).1 b).head? = _
    rw [generate_store_eq, activeLinks_append, activeLinks_deactivateAll_self]
    simp [activeLinks]
  · rw [generate_store_eq]
    have hl : lookupActive (deactivateAll store b ++
        [{ baby_id := b, share_token := t_new,
           password_hash :=
             if optStrTruthy password then some (hashpw (password.getD "")) else none,
           created_by := user_id, is_active := true, expires_at := none }]) t_old = [] := by
      rw [lookupActive_append, lookupActive_deactivateAll_eq_nil store b t_old hold]
      simp [lookupActive, Ne.symm hne]
    simp [validate_share_token, hl]

/-- C8 witness: a concrete reissue for `baby-1` makes the new link the
active one and denies the old token. -/
theorem C8_witness :
    get_active_share_link
        (generate_share_link
          [{ baby_id := "baby-1", share_token := "tok-old", password_hash := none,
             created_by := none, is_active := true, expires_at := none }]
          (fun p => p) "http://localhost:8501" "baby-1" none none "tok-new"
          IssueFault.ok).1 "baby-1" none =
      some { baby_id := "baby-1", share_token := "tok-new", password_hash := none,
             created_by := none, is_active := true, expires_at := none } ∧
    validate_share_token
        (generate_share_link
          [{ baby_id := "baby-1", share_token := "tok-old", password_hash := none,
             created_by := none, is_active := true, expires_at := none }]
          (fun p => p) "http://localhost:8501" "baby-1" none none "tok-new"
          IssueFault.ok).1 (fun _ _ => false) 0 "tok-old" none none =
      (false, "❌ Invalid or expired share link") := by
  have h := C8_issue_replaces_active
    [{ baby_id := "baby-1", share_token := "tok-old", password_hash := none,
       created_by := none, is_active := true, expires_at := none }]
    (fun p => p) "http://localhost:8501" "baby-1" none none "tok-new" "tok-old"
    (fun _ _ => false) 0 none (by decide) (by decide) (by decide)
  exact ⟨h.2.1, h.2.2⟩

/-- C9: the empty string counts as an absent password at both ends.
Issuing with `password = ""` stores no hash (the inserted row's
`password_hash` is `None`), and the resulting link grants access with no
password; validating a password-protected link with `password = ""` yields
the `password_required` prompt, not the incorrect-password denial. -/
theorem C9_empty_password_is_absent (store store2 : List ShareLink)
    (hashpw : String → String) (base_url b : String) (user_id : Option String)
    (t : String) (checkpw : String → String → Bool) (now : Int)
    (token2 : String) (link2 : ShareLink) :
    (generate_share_link store hashpw base_url b (some "") user_id t
        IssueFault.ok).1 =
      deactivateAll store b ++
        [{ baby_id := b, share_token := t, password_hash := none,
           created_by := user_id, is_active := true, expires_at := none }] ∧
    ((∀ l ∈ store, l.share_token ≠ t) →
      validate_share_token
        (generate_share_link store hashpw base_url b (some "") user_id t
          IssueFault.ok).1 checkpw now t none none = (true, b)) ∧
    ((lookupActive store2 token2).head? = some link2 →
      isExpired now link2 = false →
      optStrTruthy link2.password_hash = true →
      validate_share_token store2 checkpw now token2 (some "") none =
        (false, "password_required")) := by
  have hstore : (generate_share_link store hashpw base_url b (some "") user_id t
      IssueFault.ok).1 =
      deactivateAll store b ++
        [{ baby_id := b, share_token := t, password_hash := none,
           created_by := user_id, is_active := true, expires_at := none }] := by
    rw [generate_store_eq]
    simp [optStrTruthy]
  refine ⟨hstore, ?_, ?_⟩
  · intro hfresh
    rw [hstore]
    have hl : lookupActive (deactivateAll store b ++
        [{ baby_id := b, share_token := t, password_hash := none,
           created_by := user_id, is_active := true, expires_at := none }]) t =
        [{ baby_id := b, share_token := t, password_hash := none,
           created_by := user_id, is_active := true, expires_at := none }] := by
      rw [lookupActive_append, lookupActive_deactivateAll_fresh store b t hfresh]
      simp [lookupActive]
    simp [validate_share_token, hl, isExpired, optStrTruthy]
  · intro hl hexp hph
    have hempty : optStrTruthy (some "") = false := rfl
    simp [validate_share_token, hl, hexp, hph, hempty]

/-- C9 witness: a concrete issue with the empty password yields a link that
grants with no password, and a concrete protected link probed with the
empty password prompts for the password. -/
theorem C9_witness :
    validate_share_token
        (generate_share_link [] (fun p => p) "http://localhost:8501" "baby-1"
          (some "") none "tok" IssueFault.ok).1
        (fun _ _ => false) 0 "tok" none none = (true, "baby-1") ∧
    validate_share_token
        [{ baby_id := "baby-3", share_token := "p-tok", password_hash := some "h",
           created_by := none, is_active := true, expires_at := none }]
        (fun _ _ => false) 0 "p-tok" (some "") none =
      (false, "password_required") := by
  have h := C9_empty_password_is_absent []
    [{ baby_id := "baby-3", share_token := "p-tok", password_hash := some "h",
       created_by := none, is_active := true, expires_at := none }]
    (fun p => p) "http://localhost:8501" "baby-1" none "tok" (fun _ _ => false) 0
    "p-tok"
    { baby_id := "baby-3", share_token := "p-tok", password_hash := some "h",
      created_by := none, is_active := true, expires_at := none }
  exact ⟨h.2.1 (by decide), h.2.2 rfl rfl rfl⟩
